import Mathlib

/-!
Shallow embedding of the stellar-vault Soroban contract
(src/vault/contracts/vault/src/lib.rs).

Storage is the four instance keys `Owner`, `TokenId`, `UnlockTimestamp`,
`LockedAmount`; each is modelled as an `Option` field (absent key = `none`).
A call runs with a `CallEnv` describing which identities authorized it
(`require_auth` succeeds for an address iff it is in `auth`), the contract
address, the ledger timestamp, and whether the external token transfer
succeeds.  `deposit` and `withdraw` return an `Outcome` that, besides the
final state on success, records the list of effects (token transfers and
ledger writes) performed before the call finished or failed; a `panic!` /
`expect` in the source becomes a `failure` carrying the effects already done
at that point (the host rolls back persistent state on failure, so a failure
leaves storage unchanged).
-/

namespace StellarVault

/-- Identities (Soroban `Address`) are modelled abstractly as naturals. -/
abbrev Address := Nat

/-- Lower bound of the `i128` range. -/
def I128_MIN : Int := -(2 ^ 127)

/-- Upper bound of the `i128` range. -/
def I128_MAX : Int := 2 ^ 127 - 1

/-- Rust `i128::checked_add`. -/
def checked_add (a b : Int) : Option Int :=
  if I128_MIN ≤ a + b ∧ a + b ≤ I128_MAX then some (a + b) else none

/-- Rust `i128::checked_sub`. -/
def checked_sub (a b : Int) : Option Int :=
  if I128_MIN ≤ a - b ∧ a - b ≤ I128_MAX then some (a - b) else none

/-- The contract's instance storage: the four `DataKey` entries, each possibly
absent. -/
structure VaultState where
  owner : Option Address
  token_id : Option Address
  unlock_timestamp : Option Nat
  locked_amount : Option Int
  deriving Repr, DecidableEq

/-- Storage of a fresh, never-initialized contract instance: no key is set. -/
def emptyState : VaultState :=
  { owner := none, token_id := none, unlock_timestamp := none, locked_amount := none }

/-- The panic conditions of the contract, one per `panic!` / `expect` message
in the source (the `...NotSet` constructors are the `expect` failures on a
missing storage key; `TransferFailed` is a failure propagated from the
external token contract). -/
inductive VaultError
  | AlreadyInitialized
  | OwnerNotSet
  | TokenIdNotSet
  | UnlockTimestampNotSet
  | LockedAmountNotSet
  | Unauthorized
  | InvalidAmount
  | StillLocked
  | InsufficientFunds
  | Overflow
  | Underflow
  | TransferFailed
  deriving Repr, DecidableEq

/-- Externally observable effects a call performs, in program order: a token
transfer via the token client, or a write of the `LockedAmount` key. -/
inductive Effect
  | transfer (src dst : Address) (amount : Int)
  | writeLocked (v : Int)
  deriving Repr, DecidableEq

/-- Result of running `deposit` or `withdraw`: success with the new storage
state, or failure (panic) with the error; either way the list of effects
performed up to that point, in order. -/
inductive Outcome
  | success (s : VaultState) (effects : List Effect)
  | failure (e : VaultError) (effects : List Effect)
  deriving Repr, DecidableEq

/-- The error of a failed outcome, `none` on success. -/
def Outcome.error : Outcome → Option VaultError
  | .success _ _ => none
  | .failure e _ => some e

/-- The effect list of an outcome. -/
def Outcome.effects : Outcome → List Effect
  | .success _ es => es
  | .failure _ es => es

/-- Whether the outcome is a failure. -/
def Outcome.isFailure : Outcome → Bool
  | .success _ _ => false
  | .failure _ _ => true

/-- Number of `writeLocked` effects in an effect list. -/
def countWrites : List Effect → Nat
  | [] => 0
  | .writeLocked _ :: r => 1 + countWrites r
  | .transfer _ _ _ :: r => countWrites r

/-- The per-call environment: the set of identities whose authorization the
host attached to the call (`a.require_auth()` succeeds iff `a ∈ auth`), the
contract's own address, the current ledger timestamp, and whether the
external token transfer succeeds when invoked. -/
structure CallEnv where
  auth : List Address
  contractAddress : Address
  timestamp : Nat
  transferOk : Bool
  deriving Repr, DecidableEq

/-- `initialize(env, owner, token_id, unlock_timestamp)`: panics with
"Vault already initialized" if the `Owner` key exists, otherwise writes the
four keys. -/
def initialize_vault (s : VaultState) (owner token_id : Address) (unlock_timestamp : Nat) :
    Except VaultError VaultState :=
  if s.owner.isSome then
    .error .AlreadyInitialized
  else
    .ok { owner := some owner, token_id := some token_id,
          unlock_timestamp := some unlock_timestamp, locked_amount := some 0 }

/-- `deposit(env, from, amount)`: `from.require_auth()`, positivity check,
read `TokenId`, transfer `from → contract`, read `LockedAmount`,
`checked_add`, write `LockedAmount`.  Mirrors the source's statement order. -/
def deposit (env : CallEnv) (s : VaultState) (src : Address) (amount : Int) : Outcome :=
  if src ∉ env.auth then .failure .Unauthorized []
  else if amount ≤ 0 then .failure .InvalidAmount []
  else
    match s.token_id with
    | none => .failure .TokenIdNotSet []
    | some _ =>
      if env.transferOk = false then .failure .TransferFailed []
      else
        match s.locked_amount with
        | none => .failure .LockedAmountNotSet [.transfer src env.contractAddress amount]
        | some locked =>
          match checked_add locked amount with
          | none => .failure .Overflow [.transfer src env.contractAddress amount]
          | some v =>
            .success { s with locked_amount := some v }
              [.transfer src env.contractAddress amount, .writeLocked v]

/-- `withdraw(env, to, amount)`: read `Owner`, `owner.require_auth()`,
positivity check, read `UnlockTimestamp`, time check, read `LockedAmount`,
sufficiency check, read `TokenId`, transfer `contract → to`, `checked_sub`,
write `LockedAmount`.  Mirrors the source's statement order. -/
def withdraw (env : CallEnv) (s : VaultState) (dst : Address) (amount : Int) : Outcome :=
  match s.owner with
  | none => .failure .OwnerNotSet []
  | some owner =>
    if owner ∉ env.auth then .failure .Unauthorized []
    else if amount ≤ 0 then .failure .InvalidAmount []
    else
      match s.unlock_timestamp with
      | none => .failure .UnlockTimestampNotSet []
      | some unlock_timestamp =>
        if env.timestamp < unlock_timestamp then .failure .StillLocked []
        else
          match s.locked_amount with
          | none => .failure .LockedAmountNotSet []
          | some locked =>
            if amount > locked then .failure .InsufficientFunds []
            else
              match s.token_id with
              | none => .failure .TokenIdNotSet []
              | some _ =>
                if env.transferOk = false then .failure .TransferFailed []
                else
                  match checked_sub locked amount with
                  | none => .failure .Underflow [.transfer env.contractAddress dst amount]
                  | some v =>
                    .success { s with locked_amount := some v }
                      [.transfer env.contractAddress dst amount, .writeLocked v]

/-- `get_locked_amount(env)`: `unwrap_or(0)` on the `LockedAmount` key. -/
def get_locked_amount (s : VaultState) : Int :=
  s.locked_amount.getD 0

/-- `get_unlock_time(env)`: `expect` on the `UnlockTimestamp` key. -/
def get_unlock_time (s : VaultState) : Except VaultError Nat :=
  match s.unlock_timestamp with
  | none => .error .UnlockTimestampNotSet
  | some u => .ok u

/-- `get_owner(env)`: `expect` on the `Owner` key. -/
def get_owner (s : VaultState) : Except VaultError Address :=
  match s.owner with
  | none => .error .OwnerNotSet
  | some o => .ok o

/-- `get_token_id(env)`: `expect` on the `TokenId` key. -/
def get_token_id (s : VaultState) : Except VaultError Address :=
  match s.token_id with
  | none => .error .TokenIdNotSet
  | some t => .ok t

/-- One call of a state-mutating fund operation, with the environment it runs
under. -/
inductive Op
  | deposit (env : CallEnv) (src : Address) (amount : Int)
  | withdraw (env : CallEnv) (dst : Address) (amount : Int)

/-- Run one operation, keeping only successful calls (`none` = the call
panicked and was rolled back). -/
def runOp (s : VaultState) : Op → Option VaultState
  | .deposit env src amount =>
    match deposit env s src amount with
    | .success s' _ => some s'
    | .failure _ _ => none
  | .withdraw env dst amount =>
    match withdraw env s dst amount with
    | .success s' _ => some s'
    | .failure _ _ => none

/-- Run a sequence of operations; `none` if any call fails. -/
def runOps (s : VaultState) : List Op → Option VaultState
  | [] => some s
  | op :: rest =>
    match runOp s op with
    | none => none
    | some s' => runOps s' rest

/-- Sum of the amounts of the deposit calls in a sequence. -/
def sumDeposits : List Op → Int
  | [] => 0
  | .deposit _ _ a :: rest => a + sumDeposits rest
  | .withdraw _ _ _ :: rest => sumDeposits rest

/-- Sum of the amounts of the withdraw calls in a sequence. -/
def sumWithdrawals : List Op → Int
  | [] => 0
  | .deposit _ _ _ :: rest => sumWithdrawals rest
  | .withdraw _ _ a :: rest => a + sumWithdrawals rest

/-- The `locked_amount` field of an optional state. -/
def lockedAfter : Option VaultState → Option Int
  | none => none
  | some s => s.locked_amount

/-- Modelled from the spec: the error `withdraw` reports on an initialized
vault, per the check order the spec states ("Errors, checked in this order"):
`Unauthorized` (caller not authorized as owner), `InvalidAmount` (amount ≤ 0),
`StillLocked` (current time < unlock_time), `InsufficientFunds`
(amount > locked_amount), `Underflow` (the checked subtraction fails);
`none` when no condition fails. -/
def withdrawSpecOrder (auth : List Address) (owner : Address) (unlock_timestamp : Nat)
    (locked : Int) (now : Nat) (amount : Int) : Option VaultError :=
  if owner ∉ auth then some .Unauthorized
  else if amount ≤ 0 then some .InvalidAmount
  else if now < unlock_timestamp then some .StillLocked
  else if amount > locked then some .InsufficientFunds
  else if checked_sub locked amount = none then some .Underflow
  else none

end StellarVault

namespace StellarVault

/-- C2: when the owner key is absent, `initialize` writes `owner`, `asset_id`
(token_id) and `unlock_time` verbatim and sets `locked_amount` to 0; when the
owner key is present, it fails with `AlreadyInitialized` (the failure aborts
the call, leaving all four fields unchanged); consequently, after one
successful call every further call fails, so `initialize` succeeds at most
once per instance. -/
theorem initialize_writes_once (s : VaultState) (o t : Address) (u : Nat) :
    (s.owner = none →
      initialize_vault s o t u =
        .ok { owner := some o, token_id := some t,
              unlock_timestamp := some u, locked_amount := some 0 }) ∧
    (s.owner.isSome →
      initialize_vault s o t u = .error .AlreadyInitialized) ∧
    (∀ s2 o2 t2 u2, initialize_vault s o t u = .ok s2 →
      initialize_vault s2 o2 t2 u2 = .error .AlreadyInitialized) := by
  refine ⟨fun h => ?_, fun h => ?_, fun s2 o2 t2 u2 h => ?_⟩
  · simp [initialize_vault, h]
  · simp [initialize_vault, h]
  · unfold initialize_vault at h ⊢
    split at h
    · exact absurd h (by simp)
    · cases h
      simp

/-- Witness for C2 at concrete inputs: initializing a fresh instance succeeds
and writes the given values. -/
theorem initialize_writes_once_witness :
    initialize_vault emptyState 1 2 10 =
      .ok { owner := some 1, token_id := some 2,
            unlock_timestamp := some 10, locked_amount := some 0 } :=
  (initialize_writes_once emptyState 1 2 10).1 rfl

/-- C7: on a never-initialized instance (no storage key set),
`get_locked_amount` returns the default 0 rather than failing, while
`get_unlock_time`, `get_owner` and `get_token_id` each fail with their
not-initialized condition (the `expect` panic on the missing key). -/
theorem getters_on_uninitialized (s : VaultState)
    (ho : s.owner = none) (ht : s.token_id = none)
    (hu : s.unlock_timestamp = none) (hl : s.locked_amount = none) :
    get_locked_amount s = 0 ∧
    get_unlock_time s = .error .UnlockTimestampNotSet ∧
    get_owner s = .error .OwnerNotSet ∧
    get_token_id s = .error .TokenIdNotSet := by
  refine ⟨?_, ?_, ?_, ?_⟩
  · simp [get_locked_amount, hl]
  · simp [get_unlock_time, hu]
  · simp [get_owner, ho]
  · simp [get_token_id, ht]

/-- Witness for C7 at the fresh instance state. -/
theorem getters_on_uninitialized_witness :
    get_locked_amount emptyState = 0 ∧
    get_unlock_time emptyState = .error .UnlockTimestampNotSet ∧
    get_owner emptyState = .error .OwnerNotSet ∧
    get_token_id emptyState = .error .TokenIdNotSet :=
  getters_on_uninitialized emptyState rfl rfl rfl rfl

/-- C10: on a vault whose `TokenId` key is unset (uninitialized), `deposit`
authenticates the caller and checks positivity before any storage read: an
unauthenticated caller fails with `Unauthorized`, an authenticated caller
with `amount ≤ 0` fails with `InvalidAmount` (not an initialization error),
and only with `amount > 0` does the call fail on the missing token id. -/
theorem deposit_uninitialized_order (env : CallEnv) (s : VaultState)
    (src : Address) (amount : Int) (ht : s.token_id = none) :
    (src ∉ env.auth → deposit env s src amount = .failure .Unauthorized []) ∧
    (src ∈ env.auth → amount ≤ 0 →
      deposit env s src amount = .failure .InvalidAmount []) ∧
    (src ∈ env.auth → 0 < amount →
      deposit env s src amount = .failure .TokenIdNotSet []) := by
  refine ⟨fun h => ?_, fun h h2 => ?_, fun h h2 => ?_⟩
  · simp [deposit, h]
  · simp [deposit, h, h2]
  · simp only [deposit, h, not_true_eq_false, if_false, ht]
    rw [if_neg (by omega)]

/-- Witness for C10: on the fresh instance, an authorized deposit of 0 fails
with `InvalidAmount`, not with a missing-key error. -/
theorem deposit_uninitialized_order_witness :
    deposit { auth := [3], contractAddress := 0, timestamp := 0, transferOk := true }
      emptyState 3 0 = .failure .InvalidAmount [] :=
  (deposit_uninitialized_order
    { auth := [3], contractAddress := 0, timestamp := 0, transferOk := true }
    emptyState 3 0 rfl).2.1 (by decide) (by decide)

end StellarVault

namespace StellarVault

/-- C4 counterexample: on an initialized vault (owner 1, unlock time 10) at
current time 0 < 10 with amount 4 > 0, a call whose caller authenticates as
identity 3 (not the owner) fails with `Unauthorized`, not with `StillLocked`;
so before the unlock time the failure is not `StillLocked` for every
authenticated identity. -/
theorem withdraw_before_unlock_cex :
    (withdraw { auth := [3], contractAddress := 0, timestamp := 0, transferOk := true }
       { owner := some 1, token_id := some 2,
         unlock_timestamp := some 10, locked_amount := some 5 } 3 4).error
      = some .Unauthorized ∧
    (withdraw { auth := [3], contractAddress := 0, timestamp := 0, transferOk := true }
       { owner := some 1, token_id := some 2,
         unlock_timestamp := some 10, locked_amount := some 5 } 3 4).error
      ≠ some .StillLocked := by
  constructor
  · rfl
  · decide

/-- C4 amended: on a vault whose owner key is set, a `withdraw` call that the
stored owner authorized, with `amount > 0`, at a current time strictly below
`unlock_time`, always fails with `StillLocked` — regardless of the
destination address, of the amount, and of the rest of the state. -/
theorem withdraw_before_unlock_stillLocked (env : CallEnv) (s : VaultState)
    (o : Address) (u : Nat) (dst : Address) (amount : Int)
    (ho : s.owner = some o) (hu : s.unlock_timestamp = some u)
    (hauth : o ∈ env.auth) (hamt : 0 < amount) (htime : env.timestamp < u) :
    withdraw env s dst amount = .failure .StillLocked [] := by
  have h1 : ¬ (o ∉ env.auth) := fun hc => hc hauth
  have h2 : ¬ (amount ≤ 0) := by omega
  simp [withdraw, ho, hu, h1, h2, htime]

/-- Witness for amended C4 at concrete inputs. -/
theorem withdraw_before_unlock_stillLocked_witness :
    withdraw { auth := [1], contractAddress := 0, timestamp := 3, transferOk := true }
      { owner := some 1, token_id := some 2,
        unlock_timestamp := some 10, locked_amount := some 5 } 7 4
      = .failure .StillLocked [] :=
  withdraw_before_unlock_stillLocked
    { auth := [1], contractAddress := 0, timestamp := 3, transferOk := true }
    { owner := some 1, token_id := some 2,
      unlock_timestamp := some 10, locked_amount := some 5 }
    1 10 7 4 rfl rfl (by decide) (by decide) (by decide)

/-- C8 counterexample: on a never-initialized instance, `withdraw` with
amount 0 by a caller who did authenticate fails on the missing owner key
(`OwnerNotSet`, the `expect("Owner not set")` panic), not with
`InvalidAmount`; so the claim fails for withdraw on states whose owner key
is absent. -/
theorem invalid_amount_cex :
    (withdraw { auth := [1], contractAddress := 0, timestamp := 0, transferOk := true }
       emptyState 1 0).error = some .OwnerNotSet ∧
    (withdraw { auth := [1], contractAddress := 0, timestamp := 0, transferOk := true }
       emptyState 1 0).error ≠ some .InvalidAmount := by
  constructor
  · rfl
  · decide

/-- C8 amended: for every state and every amount ≤ 0, `deposit` by an
authenticated caller fails with `InvalidAmount`, and `withdraw` fails with
`InvalidAmount` provided the owner key is present and the stored owner
authorized the call (on states without an owner key the withdraw call fails
earlier, on the missing key); in each case the failing call performs no
effect, so there is no state change. -/
theorem invalid_amount_rejected (env : CallEnv) (s : VaultState)
    (src dst o : Address) (amount : Int) (hamt : amount ≤ 0) :
    (src ∈ env.auth → deposit env s src amount = .failure .InvalidAmount []) ∧
    (s.owner = some o → o ∈ env.auth →
      withdraw env s dst amount = .failure .InvalidAmount []) := by
  constructor
  · intro h
    have h1 : ¬ (src ∉ env.auth) := fun hc => hc h
    simp [deposit, h1, hamt]
  · intro ho h
    have h1 : ¬ (o ∉ env.auth) := fun hc => hc h
    simp [withdraw, ho, h1, hamt]

/-- Witness for amended C8 at concrete inputs: an authorized deposit of 0 on
an initialized vault fails with `InvalidAmount`. -/
theorem invalid_amount_rejected_witness :
    deposit { auth := [3], contractAddress := 0, timestamp := 0, transferOk := true }
      { owner := some 1, token_id := some 2,
        unlock_timestamp := some 10, locked_amount := some 5 } 3 0
      = .failure .InvalidAmount [] :=
  (invalid_amount_rejected
    { auth := [3], contractAddress := 0, timestamp := 0, transferOk := true }
    { owner := some 1, token_id := some 2,
      unlock_timestamp := some 10, locked_amount := some 5 }
    3 9 1 0 (by decide)).1 (by decide)

/-- C6: whenever the stored `locked_amount` is a value of the `i128` range
(which it is, being stored as an `i128`), the `Underflow` branch of
`withdraw` is unreachable: under the earlier checks `amount > 0` and
`amount ≤ locked_amount`, the checked subtraction cannot fail, so no call
ever reports `Underflow`. -/
theorem withdraw_underflow_unreachable (env : CallEnv) (s : VaultState)
    (dst : Address) (amount l : Int)
    (hl : s.locked_amount = some l) (hmin : I128_MIN ≤ l) (hmax : l ≤ I128_MAX) :
    (withdraw env s dst amount).error ≠ some .Underflow := by
  intro hc
  unfold withdraw at hc
  split at hc
  · simp [Outcome.error] at hc
  split at hc
  · simp [Outcome.error] at hc
  split at hc
  · simp [Outcome.error] at hc
  split at hc
  · simp [Outcome.error] at hc
  split at hc
  · simp [Outcome.error] at hc
  split at hc
  · simp [Outcome.error] at hc
  rename_i locked hlocked
  split at hc
  · simp [Outcome.error] at hc
  split at hc
  · simp [Outcome.error] at hc
  split at hc
  · simp [Outcome.error] at hc
  split at hc
  · rename_i hsub
    rw [hl] at hlocked
    cases hlocked
    rename_i hpos hinsuf _ _
    unfold checked_sub at hsub
    rw [if_pos] at hsub
    · exact absurd hsub (by simp)
    · have hm0 : I128_MIN ≤ 0 := by norm_num [I128_MIN]
      constructor <;> omega
  · simp [Outcome.error] at hc

end StellarVault

namespace StellarVault

/-- Witness for C6 at concrete inputs: a withdraw on an initialized vault
never reports `Underflow` (here it succeeds). -/
theorem withdraw_underflow_unreachable_witness :
    (withdraw { auth := [1], contractAddress := 0, timestamp := 20, transferOk := true }
       { owner := some 1, token_id := some 2,
         unlock_timestamp := some 10, locked_amount := some 5 } 1 2).error
      ≠ some .Underflow :=
  withdraw_underflow_unreachable
    { auth := [1], contractAddress := 0, timestamp := 20, transferOk := true }
    { owner := some 1, token_id := some 2,
      unlock_timestamp := some 10, locked_amount := some 5 }
    1 2 5 rfl (by norm_num [I128_MIN]) (by norm_num [I128_MAX])

/-- C9: a successful `deposit` or `withdraw` leaves `owner`, `token_id`
(asset id) and `unlock_timestamp` exactly as they were: `locked_amount` is
the only field either operation writes.  (The four getters are pure reads:
in the embedding they are functions of the state that return no new state.) -/
theorem only_locked_amount_mutates (env : CallEnv) (s s2 : VaultState)
    (es : List Effect) (src dst : Address) (amount : Int) :
    (deposit env s src amount = .success s2 es →
      s2.owner = s.owner ∧ s2.token_id = s.token_id ∧
      s2.unlock_timestamp = s.unlock_timestamp) ∧
    (withdraw env s dst amount = .success s2 es →
      s2.owner = s.owner ∧ s2.token_id = s.token_id ∧
      s2.unlock_timestamp = s.unlock_timestamp) := by
  constructor
  · intro h
    unfold deposit at h
    repeat' split at h
    all_goals cases h
    all_goals simp
  · intro h
    unfold withdraw at h
    repeat' split at h
    all_goals cases h
    all_goals simp

set_option maxRecDepth 4000 in
/-- Witness for C9 at a concrete successful deposit. -/
theorem only_locked_amount_mutates_witness :
    ({ owner := some 1, token_id := some 2, unlock_timestamp := some 10,
       locked_amount := some 5 } : VaultState).owner
      = ({ owner := some 1, token_id := some 2, unlock_timestamp := some 10,
           locked_amount := some 0 } : VaultState).owner ∧
    ({ owner := some 1, token_id := some 2, unlock_timestamp := some 10,
       locked_amount := some 5 } : VaultState).token_id
      = ({ owner := some 1, token_id := some 2, unlock_timestamp := some 10,
           locked_amount := some 0 } : VaultState).token_id ∧
    ({ owner := some 1, token_id := some 2, unlock_timestamp := some 10,
       locked_amount := some 5 } : VaultState).unlock_timestamp
      = ({ owner := some 1, token_id := some 2, unlock_timestamp := some 10,
           locked_amount := some 0 } : VaultState).unlock_timestamp :=
  (only_locked_amount_mutates
    { auth := [3], contractAddress := 0, timestamp := 0, transferOk := true }
    { owner := some 1, token_id := some 2, unlock_timestamp := some 10,
      locked_amount := some 0 }
    { owner := some 1, token_id := some 2, unlock_timestamp := some 10,
      locked_amount := some 5 }
    [.transfer 3 0 5, .writeLocked 5] 3 9 5).1 rfl

/-- C3: on an initialized vault (all four keys set) whose external transfer
succeeds, the error `withdraw` reports is exactly the first failing
condition in the order `Unauthorized`, `InvalidAmount`, `StillLocked`,
`InsufficientFunds`, `Underflow` (and the call succeeds when none fails);
a failure aborts the call, so the rolled-back state is unchanged. -/
theorem withdraw_check_order (env : CallEnv) (s : VaultState)
    (o t : Address) (u : Nat) (l : Int) (dst : Address) (amount : Int)
    (ho : s.owner = some o) (ht : s.token_id = some t)
    (hu : s.unlock_timestamp = some u) (hl : s.locked_amount = some l)
    (htr : env.transferOk = true) :
    (withdraw env s dst amount).error =
      withdrawSpecOrder env.auth o u l env.timestamp amount := by
  unfold withdraw withdrawSpecOrder
  rw [ho, ht, hu, hl, htr]
  rcases hcs : checked_sub l amount with _ | v <;>
    simp only [hcs] <;> split_ifs <;> simp_all [Outcome.error]

set_option maxRecDepth 4000 in
/-- Witness for C3 at concrete inputs (the unauthorized case). -/
theorem withdraw_check_order_witness :
    (withdraw { auth := [3], contractAddress := 0, timestamp := 0, transferOk := true }
       { owner := some 1, token_id := some 2,
         unlock_timestamp := some 10, locked_amount := some 5 } 3 4).error
      = withdrawSpecOrder [3] 1 10 5 0 4 :=
  withdraw_check_order
    { auth := [3], contractAddress := 0, timestamp := 0, transferOk := true }
    { owner := some 1, token_id := some 2,
      unlock_timestamp := some 10, locked_amount := some 5 }
    1 2 10 5 3 4 rfl rfl rfl rfl rfl

end StellarVault

namespace StellarVault

set_option maxRecDepth 8000 in
/-- C5 counterexample: the state with `locked_amount = i128 MAX` is reachable
by a successful deposit, and on it a further deposit of 1 completes the
external transfer and then fails on the overflow check — a failure strictly
between the completed transfer and the ledger write, so the transfer is not
the last possibly-failing step of `deposit`. -/
theorem transfer_not_last_failing_cex :
    runOps { owner := some 1, token_id := some 2, unlock_timestamp := some 10,
             locked_amount := some 0 }
      [Op.deposit { auth := [3], contractAddress := 0, timestamp := 0,
                    transferOk := true } 3 I128_MAX]
      = some { owner := some 1, token_id := some 2, unlock_timestamp := some 10,
               locked_amount := some I128_MAX } ∧
    deposit { auth := [3], contractAddress := 0, timestamp := 0, transferOk := true }
      { owner := some 1, token_id := some 2, unlock_timestamp := some 10,
        locked_amount := some I128_MAX } 3 1
      = .failure .Overflow [.transfer 3 0 1] := by
  constructor <;> rfl

/-- C5 amended: all preconditions that can fail are validated before any
persistent write — a failing `deposit` or `withdraw` has performed no
`LockedAmount` write, its completed effects being at most the external
transfer — but the transfer is not the last possibly-failing step: in
`deposit` the `LockedAmount` read and the overflow-checked addition (and in
`withdraw` the underflow-checked subtraction) sit between the transfer and
the ledger write and can fail there, relying on the host's rollback of the
transfer. -/
theorem no_write_before_failure (env : CallEnv) (s : VaultState)
    (src dst : Address) (amount : Int) :
    ((deposit env s src amount).isFailure = true →
      (deposit env s src amount).effects = [] ∨
      (deposit env s src amount).effects
        = [.transfer src env.contractAddress amount]) ∧
    ((withdraw env s dst amount).isFailure = true →
      (withdraw env s dst amount).effects = [] ∨
      (withdraw env s dst amount).effects
        = [.transfer env.contractAddress dst amount]) := by
  constructor
  · unfold deposit
    repeat' split
    all_goals intro h
    all_goals simp_all [Outcome.isFailure, Outcome.effects]
  · unfold withdraw
    repeat' split
    all_goals intro h
    all_goals simp_all [Outcome.isFailure, Outcome.effects]

/-- Witness for amended C5 at a concrete failing deposit (unauthorized, so
no effect was performed). -/
theorem no_write_before_failure_witness :
    (deposit { auth := [3], contractAddress := 0, timestamp := 0, transferOk := true }
       emptyState 9 5).effects = [] ∨
    (deposit { auth := [3], contractAddress := 0, timestamp := 0, transferOk := true }
       emptyState 9 5).effects = [.transfer 9 0 5] :=
  (no_write_before_failure
    { auth := [3], contractAddress := 0, timestamp := 0, transferOk := true }
    emptyState 9 7 5).1 rfl

/-- A successful deposit read some locked value `v` and wrote `v + amount`,
with `amount > 0`. -/
theorem deposit_success_locked (env : CallEnv) (s s2 : VaultState)
    (es : List Effect) (src : Address) (amount : Int)
    (h : deposit env s src amount = .success s2 es) :
    ∃ v, s.locked_amount = some v ∧ s2.locked_amount = some (v + amount) ∧
      0 < amount := by
  unfold deposit at h
  repeat' split at h
  all_goals cases h
  rename_i hna hnz xa va htok htr xl locked hlocked xv v hadd
  unfold checked_add at hadd
  split at hadd
  · cases hadd
    exact ⟨locked, hlocked, rfl, by omega⟩
  · cases hadd

/-- A successful withdraw read some locked value `v` and wrote `v - amount`,
with `0 < amount ≤ v`. -/
theorem withdraw_success_locked (env : CallEnv) (s s2 : VaultState)
    (es : List Effect) (dst : Address) (amount : Int)
    (h : withdraw env s dst amount = .success s2 es) :
    ∃ v, s.locked_amount = some v ∧ s2.locked_amount = some (v - amount) ∧
      0 < amount ∧ amount ≤ v := by
  unfold withdraw at h
  repeat' split at h
  all_goals cases h
  rename_i xo o ho hoa hnz xu ut hut hts xl locked hlocked hins xt tok htok htr xs v hsub
  unfold checked_sub at hsub
  split at hsub
  · cases hsub
    exact ⟨locked, hlocked, rfl, by omega, by omega⟩
  · cases hsub

/-- Unfolding equation for `runOps` on a cons. -/
theorem runOps_cons (s : VaultState) (op : Op) (l : List Op) :
    runOps s (op :: l) = match runOp s op with
      | none => none
      | some s1 => runOps s1 l := rfl

/-- Running a concatenation of operation lists is running them in turn. -/
theorem runOps_append (pre suf : List Op) : ∀ s : VaultState,
    runOps s (pre ++ suf) = match runOps s pre with
      | none => none
      | some sm => runOps sm suf := by
  induction pre with
  | nil => intro s; rfl
  | cons op rest ih =>
    intro s
    rw [List.cons_append, runOps_cons, runOps_cons]
    cases hr : runOp s op with
    | none => rfl
    | some s1 => simp [ih s1]

/-- Along any successful run, the locked amount tracks the net of deposited
minus withdrawn amounts and stays nonnegative. -/
theorem runOps_locked (ops : List Op) : ∀ (s s2 : VaultState) (v : Int),
    s.locked_amount = some v → 0 ≤ v → runOps s ops = some s2 →
    s2.locked_amount = some (v + (sumDeposits ops - sumWithdrawals ops)) ∧
    0 ≤ v + (sumDeposits ops - sumWithdrawals ops) := by
  induction ops with
  | nil =>
    intro s s2 v hl hv h
    cases h
    simpa [sumDeposits, sumWithdrawals] using ⟨hl, hv⟩
  | cons op rest ih =>
    intro s s2 v hl hv h
    rw [runOps_cons] at h
    split at h
    · cases h
    rename_i s1 hs1
    cases op with
    | deposit env src amount =>
      cases hd : deposit env s src amount with
      | success s3 es =>
        simp only [runOp, hd] at hs1
        have h31 : s3 = s1 := by simpa using hs1
        subst h31
        obtain ⟨w, hw, hw2, hwpos⟩ := deposit_success_locked env s s3 es src amount hd
        rw [hl] at hw
        cases hw
        have harith : v + (sumDeposits (Op.deposit env src amount :: rest)
              - sumWithdrawals (Op.deposit env src amount :: rest))
            = (v + amount) + (sumDeposits rest - sumWithdrawals rest) := by
          simp [sumDeposits, sumWithdrawals]; ring
        rw [harith]
        exact ih s3 s2 (v + amount) hw2 (by omega) h
      | failure e es =>
        simp only [runOp, hd] at hs1
        exact absurd hs1 (by simp)
    | withdraw env dst amount =>
      cases hd : withdraw env s dst amount with
      | success s3 es =>
        simp only [runOp, hd] at hs1
        have h31 : s3 = s1 := by simpa using hs1
        subst h31
        obtain ⟨w, hw, hw2, hwpos, hwle⟩ := withdraw_success_locked env s s3 es dst amount hd
        rw [hl] at hw
        cases hw
        have harith : v + (sumDeposits (Op.withdraw env dst amount :: rest)
              - sumWithdrawals (Op.withdraw env dst amount :: rest))
            = (v - amount) + (sumDeposits rest - sumWithdrawals rest) := by
          simp [sumDeposits, sumWithdrawals]; ring
        rw [harith]
        exact ih s3 s2 (v - amount) hw2 (by omega) h
      | failure e es =>
        simp only [runOp, hd] at hs1
        exact absurd hs1 (by simp)

/-- C1: starting from a freshly initialized vault, for every sequence of
deposit/withdraw calls that all succeed, the stored `locked_amount` after
the sequence equals the sum of the deposited amounts minus the sum of the
withdrawn amounts, and at every intermediate point (every decomposition of
the sequence into a prefix and a suffix) the locked amount equals the net of
the prefix and is nonnegative. -/
theorem locked_amount_net_of_trace (o t : Address) (u : Nat) (s0 s2 : VaultState)
    (ops pre suf : List Op)
    (hinit : initialize_vault emptyState o t u = .ok s0)
    (hrun : runOps s0 ops = some s2)
    (hdecomp : ops = pre ++ suf) :
    s2.locked_amount = some (sumDeposits ops - sumWithdrawals ops) ∧
    0 ≤ sumDeposits ops - sumWithdrawals ops ∧
    lockedAfter (runOps s0 pre) = some (sumDeposits pre - sumWithdrawals pre) ∧
    0 ≤ sumDeposits pre - sumWithdrawals pre := by
  have hs0 : s0.locked_amount = some 0 := by
    unfold initialize_vault at hinit
    split at hinit
    · cases hinit
    · cases hinit; rfl
  have hall := runOps_locked ops s0 s2 0 hs0 le_rfl hrun
  subst hdecomp
  have hsplit := hrun
  rw [runOps_append] at hsplit
  rcases hpre : runOps s0 pre with _ | sm
  · rw [hpre] at hsplit
    cases hsplit
  · have hp := runOps_locked pre s0 sm 0 hs0 le_rfl hpre
    refine ⟨by simpa using hall.1, by simpa using hall.2, ?_, by simpa using hp.2⟩
    simp only [lockedAfter]
    simpa using hp.1

end StellarVault

namespace StellarVault

set_option maxRecDepth 8000 in
/-- Witness for C1 on a concrete trace: deposit 5 then withdraw 2 after the
unlock time, net 3, with the prefix after the deposit holding 5. -/
theorem locked_amount_net_of_trace_witness :
    ({ owner := some 1, token_id := some 2, unlock_timestamp := some 10,
       locked_amount := some 3 } : VaultState).locked_amount
      = some (sumDeposits
            [Op.deposit { auth := [3], contractAddress := 0, timestamp := 0,
                          transferOk := true } 3 5,
             Op.withdraw { auth := [1], contractAddress := 0, timestamp := 10,
                           transferOk := true } 1 2]
          - sumWithdrawals
            [Op.deposit { auth := [3], contractAddress := 0, timestamp := 0,
                          transferOk := true } 3 5,
             Op.withdraw { auth := [1], contractAddress := 0, timestamp := 10,
                           transferOk := true } 1 2]) ∧
    0 ≤ sumDeposits
          [Op.deposit { auth := [3], contractAddress := 0, timestamp := 0,
                        transferOk := true } 3 5,
           Op.withdraw { auth := [1], contractAddress := 0, timestamp := 10,
                         transferOk := true } 1 2]
        - sumWithdrawals
          [Op.deposit { auth := [3], contractAddress := 0, timestamp := 0,
                        transferOk := true } 3 5,
           Op.withdraw { auth := [1], contractAddress := 0, timestamp := 10,
                         transferOk := true } 1 2] ∧
    lockedAfter (runOps
        { owner := some 1, token_id := some 2, unlock_timestamp := some 10,
          locked_amount := some 0 }
        [Op.deposit { auth := [3], contractAddress := 0, timestamp := 0,
                      transferOk := true } 3 5])
      = some (sumDeposits
            [Op.deposit { auth := [3], contractAddress := 0, timestamp := 0,
                          transferOk := true } 3 5]
          - sumWithdrawals
            [Op.deposit { auth := [3], contractAddress := 0, timestamp := 0,
                          transferOk := true } 3 5]) ∧
    0 ≤ sumDeposits
          [Op.deposit { auth := [3], contractAddress := 0, timestamp := 0,
                        transferOk := true } 3 5]
        - sumWithdrawals
          [Op.deposit { auth := [3], contractAddress := 0, timestamp := 0,
                        transferOk := true } 3 5] :=
  locked_amount_net_of_trace 1 2 10
    { owner := some 1, token_id := some 2, unlock_timestamp := some 10,
      locked_amount := some 0 }
    { owner := some 1, token_id := some 2, unlock_timestamp := some 10,
      locked_amount := some 3 }
    [Op.deposit { auth := [3], contractAddress := 0, timestamp := 0,
                  transferOk := true } 3 5,
     Op.withdraw { auth := [1], contractAddress := 0, timestamp := 10,
                   transferOk := true } 1 2]
    [Op.deposit { auth := [3], contractAddress := 0, timestamp := 0,
                  transferOk := true } 3 5]
    [Op.withdraw { auth := [1], contractAddress := 0, timestamp := 10,
                   transferOk := true } 1 2]
    rfl (by rfl) rfl

end StellarVault
